import Mathlib

/-!
Verification development for the repository `api_meraki_alerts`
(single source file `update_alert_opt_webhook.py`).

The program is an interactive, single-threaded batch tool.  We embed it
shallowly: every operator answer read by `input(...)` becomes a field of an
`Env` record, every remote Dashboard-API call becomes a lookup in a `World`
oracle (which may return an error, modelling a raised exception), and the
observable behaviour of a run is a list of `Event`s (remote calls, file
writes, log lines) together with an `Outcome` (completed, aborted at one of
the gates, or crashed on an uncaught exception).  Pure helper functions of
the source are translated directly.
-/

/-- The alert-settings document loaded from the config file.  The tool treats
it opaquely (it is parsed JSON passed through unchanged), so we model it as
an opaque string value. -/
abbrev AlertDoc := String

/-- An organization record as returned by `getOrganizations`. -/
structure Org where
  id : String
  name : String
deriving DecidableEq, Repr

/-- A network record as returned by `getOrganizationNetworks`; `tags` models
the `tags` list (the Python code uses `net.get(\x27tags\x27, [])`). -/
structure Network where
  id : String
  name : String
  tags : List String
deriving DecidableEq, Repr

/-- A webhook HTTP receiver as returned by `getNetworkWebhooksHttpServers`
or `createNetworkWebhooksHttpServer`. -/
structure Hook where
  id : String
  name : String
  url : String
  sharedSecret : String
  payloadTemplateId : String
deriving DecidableEq, Repr

/-- Observable effects of a run: remote API calls, local filesystem writes
and log lines, in program order. -/
inductive Event where
  | constructDashboard
  | listOrgsCall
  | listNetworksCall (orgId : String)
  | mkBackupDir (dir : String)
  | logLine (file msg : String)
  | listHooksCall (netId : String)
  | createHookCall (netId name url sharedSecret templateId templateName : String)
  | getAlertsCall (netId : String)
  | writeBackupFile (netId path : String) (contents : AlertDoc)
  | updateCall (netId : String) (doc : AlertDoc)
deriving DecidableEq, Repr

/-- How a run ends: the loop completed over the selected networks, the run
was aborted at a gate or stop condition, or an uncaught exception ended the
process. -/
inductive Outcome where
  | completed (selected : List Network)
  | abortedInitialConfirm
  | abortedNoNetworks
  | abortedFinalConfirm
  | crashed (msg : String)
deriving DecidableEq, Repr

/-- The three session-scoped webhook parameters, captured lazily on first
use inside the loop (Python variables `webhook_name`, `webhook_url`,
`webhook_secret`, initially `None`, here the empty string). -/
structure WebhookState where
  whName : String
  whUrl : String
  whSecret : String
deriving DecidableEq, Repr

/-- All operator console answers of one run, in prompt order.  `orgChoice`
is the result of Python `int(...)` applied to the organization answer
(`none` models a `ValueError`).  `timestamp` is the run timestamp string
produced by `datetime.now().strftime`. -/
structure Env where
  apiKey : String
  configFile : String
  dryRunAnswer : String
  initialConfirm : String
  orgChoice : Option Int
  tagFilter : String
  allAnswer : String
  indicesAnswer : String
  useWebhookAnswer : String
  finalConfirm : String
  webhookName : String
  webhookUrl : String
  webhookSecret : String
  timestamp : String

/-- The external collaborators: the Dashboard API (each operation may raise,
modelled by `Except`), the config file, and local file-write success. -/
structure World where
  loadConfig : Except String AlertDoc
  orgs : List Org
  networksOf : String → List Network
  listHooks : String → Except String (List Hook)
  createHook : String → String → String → String → Except String Hook
  getAlerts : String → Except String AlertDoc
  fsWriteOk : String → Bool
  updateAlerts : String → AlertDoc → Except String Unit

/-- ASCII lowercase of one character (the only case Python `lower()` needs
for the tokens this program compares: `yes`, `y`, `CONFIRM`). -/
def charLower (c : Char) : Char :=
  if 'A' ≤ c ∧ c ≤ 'Z' then Char.ofNat (c.toNat + 32) else c

/-- Python `s.lower()`, modelled characterwise so that it evaluates inside
the kernel. -/
def pyLower (s : String) : String := String.mk (s.data.map charLower)

/-- Python `s.strip()`: drop whitespace from both ends. -/
def pyStrip (s : String) : String :=
  String.mk (((s.data.dropWhile Char.isWhitespace).reverse.dropWhile Char.isWhitespace).reverse)

/-- Python `s.strip().lower()`. -/
def pyLowerStrip (s : String) : String := pyLower (pyStrip s)

/-- Splits a character list at commas; the empty input yields one empty
token, matching Python `"".split(",") == [""]`. -/
def splitCommaAux : List Char → List Char → List (List Char)
  | [], acc => [acc.reverse]
  | c :: rest, acc =>
    if c = ',' then acc.reverse :: splitCommaAux rest []
    else splitCommaAux rest (c :: acc)

/-- Python `s.split(",")`. -/
def pySplitComma (s : String) : List String :=
  (splitCommaAux s.data []).map String.mk

/-- Decimal value of a digit string, accumulator style (Python `int` on a
string of digits). -/
def digitsToNat : List Char → Nat → Nat
  | [], acc => acc
  | c :: rest, acc => digitsToNat rest (acc * 10 + (c.toNat - 48))

/-- Python `int(s)` restricted to digit strings (the program only applies
it after an `isdigit` check). -/
def pyInt (s : String) : Nat := digitsToNat s.data 0

/-- Python `s.replace(" ", "_")` for the single-character pattern used by
the backup filename. -/
def replaceSpaces (s : String) : String :=
  String.mk (s.data.map (fun c => if c = ' ' then '_' else c))

/-- Python list indexing `l[i]`: non-negative indices from the front,
negative indices from the back, `none` models an `IndexError`. -/
def pyGet {α : Type} (l : List α) (i : Int) : Option α :=
  if 0 ≤ i then l.get? i.toNat
  else if 0 ≤ i + l.length then l.get? (i + l.length).toNat else none

/-- Python `s.isdigit()` (restricted to ASCII digits): nonempty and all
characters are digits. -/
def pyIsdigit (s : String) : Bool := !s.data.isEmpty && s.data.all Char.isDigit

/-- One token of the comma-separated selection answer: kept only when
`i.strip().isdigit()`, in which case it contributes `int(i.strip()) - 1`
(source line 116). -/
def tokenToIndex (t : String) : Option Int :=
  if pyIsdigit (pyStrip t) then some ((pyInt (pyStrip t) : Int) - 1) else none

/-- The parsed 0-based index list of the selection answer (source line 116):
split on commas, silently dropping blank and non-numeric tokens. -/
def parseIndices (s : String) : List Int :=
  (pySplitComma s).filterMap tokenToIndex

/-- The list comprehension `[networks[i] for i in indices]` (source line
117): evaluated left to right, `none` models the `IndexError` raised by the
first out-of-range index. -/
def pySelectList (networks : List Network) : List Int → Option (List Network)
  | [] => some []
  | i :: rest =>
    match pyGet networks i, pySelectList networks rest with
    | some net, some nets => some (net :: nets)
    | _, _ => none

/-- Network selection (source lines 111-117): answering `y` selects all
displayed networks, anything else is parsed as a comma-separated index
list. -/
def selectNetworks (env : Env) (networks : List Network) : Option (List Network) :=
  if pyLowerStrip env.allAnswer = "y" then some networks
  else pySelectList networks (parseIndices env.indicesAnswer)

/-- Embeds `filter_networks_by_tag` (source lines 16-17): keep the networks
whose tag list contains `tag` (exact, case-sensitive membership). -/
def filter_networks_by_tag (networks : List Network) (tag : String) : List Network :=
  networks.filter (fun net => net.tags.contains tag)

/-- The network list shown to the operator (source lines 98-106): the raw
org networks when the stripped tag answer is empty, otherwise the
tag-filtered list. -/
def displayedNetworks (env : Env) (w : World) (orgId : String) : List Network :=
  if pyStrip env.tagFilter = "" then w.networksOf orgId
  else filter_networks_by_tag (w.networksOf orgId) (pyStrip env.tagFilter)

/-- The matching predicate of `create_webhook` (source line 44):
`hook[\x27name\x27] == name or hook[\x27url\x27] == url`. -/
def hookMatches (name url : String) (h : Hook) : Bool :=
  h.name == name || h.url == url

/-- The scan over existing receivers in `create_webhook` (source lines
43-46): the first receiver matching by name or url. -/
def findMatchingHook (hooks : List Hook) (name url : String) : Option Hook :=
  hooks.find? (hookMatches name url)

/-- Embeds `create_webhook` (source lines 40-62) against the `World`
oracle, recording the remote calls it makes.  Listing failures and creation
failures are caught by the `try` and yield `none`; a matching existing
receiver is returned without any creation call; otherwise one creation call
with the fixed payload template `wpt_00001` is made. -/
def create_webhook (w : World) (network_id name url shared_secret : String) :
    List Event × Option Hook :=
  match w.listHooks network_id with
  | .error _ => ([Event.listHooksCall network_id], none)
  | .ok existing_hooks =>
    match findMatchingHook existing_hooks name url with
    | some hook => ([Event.listHooksCall network_id], some hook)
    | none =>
      match w.createHook network_id name url shared_secret with
      | .ok response =>
        ([Event.listHooksCall network_id,
          Event.createHookCall network_id name url shared_secret "wpt_00001" "Meraki (included)"],
         some response)
      | .error _ =>
        ([Event.listHooksCall network_id,
          Event.createHookCall network_id name url shared_secret "wpt_00001" "Meraki (included)"],
         none)

/-- The receiver created by a successful `createNetworkWebhooksHttpServer`
call with the payload of source lines 48-57: requested name, url and
secret, the fixed payload template id wpt_00001, and the server-assigned
fresh id. -/
def newHookOf (name url shared_secret freshId : String) : Hook :=
  { id := freshId, name := name, url := url,
    sharedSecret := shared_secret, payloadTemplateId := "wpt_00001" }

/-- The same `create_webhook` function (source lines 40-62) on its success
path, with the remote receiver store made an explicit value: given the
current receivers of the network it returns the receiver handed back to the
caller, the new receiver store, and whether a creation happened.  `freshId`
stands for the server-assigned id of a newly created receiver. -/
def create_webhook_state (hooks : List Hook) (name url shared_secret freshId : String) :
    Hook × List Hook × Bool :=
  match findMatchingHook hooks name url with
  | some h => (h, hooks, false)
  | none => (newHookOf name url shared_secret freshId,
      hooks ++ [newHookOf name url shared_secret freshId], true)

/-- Backup file name (source lines 30-33):
`backup_dir/NetName_with_underscores_netid_alerts_backup.json`. -/
def backupFilename (backup_dir net_name network_id : String) : String :=
  backup_dir ++ "/" ++ replaceSpaces net_name ++ "_" ++ network_id ++ "_alerts_backup.json"

/-- Embeds `backup_alert_settings` (source lines 23-38): fetch the current
alert settings, write them to the backup file, return `(true, filename)` on
success and `(false, error message)` when the fetch or the file write
raises. -/
def backup_alert_settings (w : World) (network_id net_name backup_dir : String) :
    List Event × Bool × String :=
  match w.getAlerts network_id with
  | .error e => ([Event.getAlertsCall network_id], false, e)
  | .ok current =>
    let filename := backupFilename backup_dir net_name network_id
    if w.fsWriteOk filename then
      ([Event.getAlertsCall network_id, Event.writeBackupFile network_id filename current],
       true, filename)
    else ([Event.getAlertsCall network_id], false, "file write error")

/-- Embeds `update_network_alert_settings` (source lines 64-70): the update
call is attempted, any raise is caught and turned into `false`. -/
def update_network_alert_settings (w : World) (network_id : String) (alert_settings : AlertDoc) :
    List Event × Bool :=
  match w.updateAlerts network_id alert_settings with
  | .ok _ => ([Event.updateCall network_id alert_settings], true)
  | .error _ => ([Event.updateCall network_id alert_settings], false)

/-- Log message of the dry-run branch (source line 153). -/
def dryRunMsg (useWebhook : Bool) (netName : String) : String :=
  "🟡 DRY RUN: Would " ++ (if useWebhook then "create webhook and " else "")
    ++ "update alerts for \x27" ++ netName ++ "\x27"

/-- Log message after a webhook failure (source line 168). -/
def webhookSkipMsg (netName : String) : String :=
  "❌ Skipped updating alerts for " ++ netName ++ " due to webhook failure."

/-- Log message after a successful backup (source line 175). -/
def backupOkMsg (netName path : String) : String :=
  "📦 Backed up current alert settings for \x27" ++ netName ++ "\x27 to: " ++ path

/-- Log message after a failed backup (source line 177). -/
def backupFailMsg (netName err : String) : String :=
  "❌ Failed to back up current alert settings for \x27" ++ netName ++ "\x27: " ++ err

/-- Log message after a successful update (source line 191). -/
def updateOkMsg (netName : String) : String := "✅ Updated alerts for " ++ netName

/-- Log message after a failed update (source line 193). -/
def updateFailMsg (netName : String) : String := "❌ Failed to update alerts for " ++ netName

/-- First log header line (source line 125). -/
def header1 (ts : String) : String := "=== Alert Update Log: " ++ ts ++ " ==="

/-- Second log header line (source line 126), with its embedded newline. -/
def header2 (dryRun : Bool) : String :=
  "Dry Run Mode: " ++ (if dryRun then "YES" else "NO") ++ "\n"

/-- Run log file name (source line 121). -/
def logFileName (ts : String) : String := "alert_update_log_" ++ ts ++ ".txt"

/-- Run backup directory name (source line 122). -/
def backupDirName (ts : String) : String := "alerts_backups_" ++ ts

/-- The dry-run flag (source line 75). -/
def dryRunOf (env : Env) : Bool := pyLowerStrip env.dryRunAnswer == "y"

/-- The use-webhook flag (source line 129). -/
def useWebhookOf (env : Env) : Bool := pyLowerStrip env.useWebhookAnswer == "y"

/-- Lazy capture of the webhook parameters on first use (source lines
161-164): when the session name is still unset, read and strip the three
answers, defaulting an empty secret to `defaultSecret123`. -/
def resolveWebhookParams (env : Env) (wh : WebhookState) : WebhookState :=
  if wh.whName = "" then
    { whName := pyStrip env.webhookName
      whUrl := pyStrip env.webhookUrl
      whSecret :=
        if pyStrip env.webhookSecret = "" then "defaultSecret123"
        else pyStrip env.webhookSecret }
  else wh

/-- The update step and its log line (source lines 189-193). -/
def updateThenLog (w : World) (net : Network) (doc : AlertDoc) (lf : String) : List Event :=
  match update_network_alert_settings w net.id doc with
  | (evs, true) => evs ++ [Event.logLine lf (updateOkMsg net.name)]
  | (evs, false) => evs ++ [Event.logLine lf (updateFailMsg net.name)]

/-- The backup step followed, on success only, by the update step (source
lines 172-193): a failed backup logs and skips the update (`continue`). -/
def backupThenUpdate (w : World) (net : Network) (doc : AlertDoc) (lf bdir : String) :
    List Event :=
  match backup_alert_settings w net.id net.name bdir with
  | (evs, true, path) =>
    evs ++ [Event.logLine lf (backupOkMsg net.name path)] ++ updateThenLog w net doc lf
  | (evs, false, err) => evs ++ [Event.logLine lf (backupFailMsg net.name err)]

/-- One iteration of the per-network loop (source lines 147-193): the
dry-run branch only logs; otherwise the optional webhook step runs first
(a webhook failure logs and skips the rest), then backup-then-update. -/
def netSegment (w : World) (env : Env) (doc : AlertDoc) (lf bdir : String)
    (dryRun useWebhook : Bool) (wh : WebhookState) (net : Network) :
    List Event × WebhookState :=
  if dryRun then
    ([Event.logLine lf (dryRunMsg useWebhook net.name)], wh)
  else if useWebhook then
    let wh2 := resolveWebhookParams env wh
    match create_webhook w net.id wh2.whName wh2.whUrl wh2.whSecret with
    | (evs, none) => (evs ++ [Event.logLine lf (webhookSkipMsg net.name)], wh2)
    | (evs, some _) => (evs ++ backupThenUpdate w net doc lf bdir, wh2)
  else (backupThenUpdate w net doc lf bdir, wh)

/-- The whole per-network loop (source lines 147-193), threading the lazily
captured webhook parameters and concatenating each iteration trace. -/
def loopEvents (w : World) (env : Env) (doc : AlertDoc) (lf bdir : String)
    (dryRun useWebhook : Bool) : List Network → WebhookState → List Event
  | [], _ => []
  | net :: rest, wh =>
    let r := netSegment w env doc lf bdir dryRun useWebhook wh net
    r.1 ++ loopEvents w env doc lf bdir dryRun useWebhook rest r.2

/-- Embeds the `main` function (source lines 72-196); named `mainRun` because Lean reserves `main` for executables: config load, initial confirmation
gate, dashboard construction, org selection, tag filtering, network
selection, log and backup-dir preparation, final confirmation gate, and the
per-network loop.  Returns the event trace and the outcome. -/
def mainRun (env : Env) (w : World) : List Event × Outcome :=
  match w.loadConfig with
  | .error e => ([], .crashed e)
  | .ok doc =>
    if pyLowerStrip env.initialConfirm ≠ "yes" then ([], .abortedInitialConfirm)
    else
      match env.orgChoice with
      | none => ([Event.constructDashboard, Event.listOrgsCall], .crashed "ValueError")
      | some k =>
        match pyGet w.orgs (k - 1) with
        | none => ([Event.constructDashboard, Event.listOrgsCall], .crashed "IndexError")
        | some org =>
          if pyStrip env.tagFilter ≠ "" ∧ displayedNetworks env w org.id = [] then
            ([Event.constructDashboard, Event.listOrgsCall, Event.listNetworksCall org.id],
             .abortedNoNetworks)
          else
            match selectNetworks env (displayedNetworks env w org.id) with
            | none =>
              ([Event.constructDashboard, Event.listOrgsCall, Event.listNetworksCall org.id],
               .crashed "IndexError")
            | some selected =>
              if pyStrip env.finalConfirm ≠ "CONFIRM" then
                ([Event.constructDashboard, Event.listOrgsCall, Event.listNetworksCall org.id,
                  Event.mkBackupDir (backupDirName env.timestamp),
                  Event.logLine (logFileName env.timestamp) (header1 env.timestamp),
                  Event.logLine (logFileName env.timestamp) (header2 (dryRunOf env))],
                 .abortedFinalConfirm)
              else
                (Event.constructDashboard :: Event.listOrgsCall ::
                  Event.listNetworksCall org.id ::
                  Event.mkBackupDir (backupDirName env.timestamp) ::
                  Event.logLine (logFileName env.timestamp) (header1 env.timestamp) ::
                  Event.logLine (logFileName env.timestamp) (header2 (dryRunOf env)) ::
                  loopEvents w env doc (logFileName env.timestamp) (backupDirName env.timestamp)
                    (dryRunOf env) (useWebhookOf env) selected ⟨"", "", ""⟩,
                 .completed selected)

/-- Events of the per-network phase: remote webhook listing/creation, the
alert-settings fetch, backup file writes, and update calls. -/
def isPerNetworkEffect : Event → Bool
  | Event.listHooksCall _ => true
  | Event.createHookCall _ _ _ _ _ _ => true
  | Event.getAlertsCall _ => true
  | Event.writeBackupFile _ _ _ => true
  | Event.updateCall _ _ => true
  | _ => false

/-- Number of per-network effects in a trace. -/
def numPerNetworkEffects : List Event → Nat
  | [] => 0
  | e :: rest => (if isPerNetworkEffect e then 1 else 0) + numPerNetworkEffects rest

/-- The network a per-network event concerns, when any. -/
def eventNetId : Event → Option String
  | Event.listHooksCall nid => some nid
  | Event.createHookCall nid _ _ _ _ _ => some nid
  | Event.getAlertsCall nid => some nid
  | Event.writeBackupFile nid _ _ => some nid
  | Event.updateCall nid _ => some nid
  | _ => none

/-- Whether a trace contains any event concerning the given network. -/
def mentionsNetwork (nid : String) (tr : List Event) : Bool :=
  tr.any fun e => eventNetId e == some nid

/-- Whether a trace contains a backup file write for the given network. -/
def hasBackupWriteFor (nid : String) (tr : List Event) : Bool :=
  tr.any fun e =>
    match e with
    | Event.writeBackupFile n _ _ => n == nid
    | _ => false

/-- Whether a trace contains an alert-settings update call for the given
network. -/
def hasUpdateFor (nid : String) (tr : List Event) : Bool :=
  tr.any fun e =>
    match e with
    | Event.updateCall n _ => n == nid
    | _ => false

/-- Every update call in the trace carries exactly the given document. -/
def updatesCarry (doc : AlertDoc) (tr : List Event) : Bool :=
  tr.all fun e =>
    match e with
    | Event.updateCall _ d => d == doc
    | _ => true

/-- Scans a trace keeping the networks backed up so far (starting from
`backed`) and checks that every update call hits a network whose backup
file was written strictly earlier in the trace. -/
def updatesBackedUp (backed : List String) : List Event → Bool
  | [] => true
  | e :: rest =>
    match e with
    | Event.updateCall nid _ => backed.contains nid && updatesBackedUp backed rest
    | Event.writeBackupFile nid _ _ => updatesBackedUp (nid :: backed) rest
    | _ => updatesBackedUp backed rest

/-- The networks with a backup file written in the trace, accumulated onto
`backed`. -/
def backedAfter (backed : List String) : List Event → List String
  | [] => backed
  | e :: rest =>
    match e with
    | Event.writeBackupFile nid _ _ => backedAfter (nid :: backed) rest
    | _ => backedAfter backed rest

/-- Events that neither write a backup file nor call the update endpoint. -/
def neutralEvent : Event → Bool
  | Event.writeBackupFile _ _ _ => false
  | Event.updateCall _ _ => false
  | _ => true

/-- Example network with the `prod` tag. -/
def net1 : Network := { id := "N1", name := "HQ Site", tags := ["prod"] }

/-- Example network with the `dev` tag. -/
def net2 : Network := { id := "N2", name := "Lab", tags := ["dev"] }

/-- Example organization. -/
def org1 : Org := { id := "O1", name := "Acme" }

/-- A fully healthy remote world over `org1` with networks `net1, net2`. -/
def wOk : World :=
  { loadConfig := Except.ok "docA"
    orgs := [org1]
    networksOf := fun _ => [net1, net2]
    listHooks := fun _ => Except.ok []
    createHook := fun _ n u s =>
      Except.ok { id := "WH1", name := n, url := u, sharedSecret := s,
                  payloadTemplateId := "wpt_00001" }
    getAlerts := fun _ => Except.ok "prevDoc"
    fsWriteOk := fun _ => true
    updateAlerts := fun _ _ => Except.ok () }

/-- Baseline operator answers: proceed through both gates, no tag filter,
select all networks, no webhook, live (non-dry) run. -/
def envBase : Env :=
  { apiKey := "k", configFile := "alerts_config.json", dryRunAnswer := "n",
    initialConfirm := "yes", orgChoice := some 1, tagFilter := "",
    allAnswer := "y", indicesAnswer := "", useWebhookAnswer := "n",
    finalConfirm := "CONFIRM", webhookName := "", webhookUrl := "",
    webhookSecret := "", timestamp := "20250101_000000" }

theorem numPerNetworkEffects_append (l1 l2 : List Event) :
    numPerNetworkEffects (l1 ++ l2) = numPerNetworkEffects l1 + numPerNetworkEffects l2 := by
  induction l1 with
  | nil => simp [numPerNetworkEffects]
  | cons e rest ih => simp [numPerNetworkEffects, ih]; omega

theorem updatesBackedUp_append (l1 l2 : List Event) :
    ∀ b : List String,
      updatesBackedUp b (l1 ++ l2)
        = (updatesBackedUp b l1 && updatesBackedUp (backedAfter b l1) l2) := by
  induction l1 with
  | nil => intro b; simp [updatesBackedUp, backedAfter]
  | cons e rest ih =>
    intro b
    cases e <;> simp [updatesBackedUp, backedAfter, ih, Bool.and_assoc]

theorem updatesBackedUp_neutral_append (l1 l2 : List Event) :
    ∀ b : List String, (∀ e ∈ l1, neutralEvent e = true) →
      updatesBackedUp b (l1 ++ l2) = updatesBackedUp b l2 := by
  induction l1 with
  | nil => intro b _; simp
  | cons e rest ih =>
    intro b h
    have he := h e (List.mem_cons_self e rest)
    have hr : ∀ x ∈ rest, neutralEvent x = true := fun x hx => h x (List.mem_cons_of_mem e hx)
    cases e <;> simp only [List.cons_append, updatesBackedUp] <;>
      first
        | exact ih b hr
        | simp [neutralEvent] at he

theorem updatesCarry_append (doc : AlertDoc) (l1 l2 : List Event) :
    updatesCarry doc (l1 ++ l2) = (updatesCarry doc l1 && updatesCarry doc l2) := by
  simp [updatesCarry, List.all_append]

theorem updatesCarry_of_neutral (doc : AlertDoc) (l : List Event)
    (h : ∀ e ∈ l, neutralEvent e = true) : updatesCarry doc l = true := by
  simp only [updatesCarry, List.all_eq_true]
  intro e he
  have hn := h e he
  cases e <;> simp_all [neutralEvent]

theorem mentionsNetwork_append (nid : String) (l1 l2 : List Event) :
    mentionsNetwork nid (l1 ++ l2) = (mentionsNetwork nid l1 || mentionsNetwork nid l2) := by
  simp [mentionsNetwork, List.any_append]

theorem create_webhook_events_neutral (w : World) (nid n u s : String) :
    ∀ e ∈ (create_webhook w nid n u s).1, neutralEvent e = true := by
  unfold create_webhook
  cases hl : w.listHooks nid with
  | error e => simp [neutralEvent]
  | ok hooks =>
    cases hf : findMatchingHook hooks n u with
    | some h => simp [hf, neutralEvent]
    | none => cases hc : w.createHook nid n u s <;> simp [hf, hc, neutralEvent]

theorem create_webhook_mentions (w : World) (nid n u s : String) :
    mentionsNetwork nid (create_webhook w nid n u s).1 = true := by
  unfold create_webhook
  cases hl : w.listHooks nid with
  | error e => simp [mentionsNetwork, eventNetId]
  | ok hooks =>
    cases hf : findMatchingHook hooks n u with
    | some h => simp [hf, mentionsNetwork, eventNetId]
    | none => cases hc : w.createHook nid n u s <;> simp [hf, hc, mentionsNetwork, eventNetId]

theorem backupThenUpdate_backedUp (w : World) (net : Network) (doc : AlertDoc)
    (lf bdir : String) (b : List String) :
    updatesBackedUp b (backupThenUpdate w net doc lf bdir) = true := by
  unfold backupThenUpdate backup_alert_settings updateThenLog update_network_alert_settings
  cases hg : w.getAlerts net.id with
  | error e => simp [updatesBackedUp]
  | ok cur =>
    by_cases hw : w.fsWriteOk (backupFilename bdir net.name net.id) = true
    · cases hu : w.updateAlerts net.id doc <;>
        simp [hw, hu, updatesBackedUp, List.contains_cons]
    · simp only [Bool.not_eq_true] at hw
      simp [hw, updatesBackedUp]

theorem backupThenUpdate_mentions (w : World) (net : Network) (doc : AlertDoc)
    (lf bdir : String) :
    mentionsNetwork net.id (backupThenUpdate w net doc lf bdir) = true := by
  unfold backupThenUpdate backup_alert_settings updateThenLog update_network_alert_settings
  cases hg : w.getAlerts net.id with
  | error e => simp [mentionsNetwork, eventNetId]
  | ok cur =>
    by_cases hw : w.fsWriteOk (backupFilename bdir net.name net.id) = true
    · cases hu : w.updateAlerts net.id doc <;> simp [hw, hu, mentionsNetwork, eventNetId]
    · simp only [Bool.not_eq_true] at hw
      simp [hw, mentionsNetwork, eventNetId]

theorem backupThenUpdate_carry (w : World) (net : Network) (doc : AlertDoc)
    (lf bdir : String) :
    updatesCarry doc (backupThenUpdate w net doc lf bdir) = true := by
  unfold backupThenUpdate backup_alert_settings updateThenLog update_network_alert_settings
  cases hg : w.getAlerts net.id with
  | error e => simp [updatesCarry]
  | ok cur =>
    by_cases hw : w.fsWriteOk (backupFilename bdir net.name net.id) = true
    · cases hu : w.updateAlerts net.id doc <;> simp [hw, hu, updatesCarry]
    · simp only [Bool.not_eq_true] at hw
      simp [hw, updatesCarry]

theorem netSegment_backedUp (w : World) (env : Env) (doc : AlertDoc) (lf bdir : String)
    (dr uw : Bool) (wh : WebhookState) (net : Network) (b : List String) :
    updatesBackedUp b (netSegment w env doc lf bdir dr uw wh net).1 = true := by
  unfold netSegment
  cases dr with
  | true => simp [updatesBackedUp]
  | false =>
    cases uw with
    | false => simpa using backupThenUpdate_backedUp w net doc lf bdir b
    | true =>
      simp only [Bool.false_eq_true, if_false, if_true]
      have hn := create_webhook_events_neutral w net.id
        (resolveWebhookParams env wh).whName (resolveWebhookParams env wh).whUrl
        (resolveWebhookParams env wh).whSecret
      cases hc : create_webhook w net.id (resolveWebhookParams env wh).whName
          (resolveWebhookParams env wh).whUrl (resolveWebhookParams env wh).whSecret with
      | mk evs res =>
        rw [hc] at hn
        cases res with
        | none =>
          simp only [hc]
          rw [updatesBackedUp_neutral_append evs _ b hn]
          simp [updatesBackedUp]
        | some h =>
          simp only [hc]
          rw [updatesBackedUp_neutral_append evs _ b hn]
          exact backupThenUpdate_backedUp w net doc lf bdir _

theorem netSegment_mentions (w : World) (env : Env) (doc : AlertDoc) (lf bdir : String)
    (uw : Bool) (wh : WebhookState) (net : Network) :
    mentionsNetwork net.id (netSegment w env doc lf bdir false uw wh net).1 = true := by
  unfold netSegment
  cases uw with
  | false => simpa using backupThenUpdate_mentions w net doc lf bdir
  | true =>
    simp only [Bool.false_eq_true, if_false, if_true]
    have hm := create_webhook_mentions w net.id
      (resolveWebhookParams env wh).whName (resolveWebhookParams env wh).whUrl
      (resolveWebhookParams env wh).whSecret
    cases hc : create_webhook w net.id (resolveWebhookParams env wh).whName
        (resolveWebhookParams env wh).whUrl (resolveWebhookParams env wh).whSecret with
    | mk evs res =>
      rw [hc] at hm
      cases res with
      | none => simp [hc, mentionsNetwork_append, hm]
      | some h => simp [hc, mentionsNetwork_append, hm]

theorem netSegment_carry (w : World) (env : Env) (doc : AlertDoc) (lf bdir : String)
    (dr uw : Bool) (wh : WebhookState) (net : Network) :
    updatesCarry doc (netSegment w env doc lf bdir dr uw wh net).1 = true := by
  unfold netSegment
  cases dr with
  | true => simp [updatesCarry]
  | false =>
    cases uw with
    | false => simpa using backupThenUpdate_carry w net doc lf bdir
    | true =>
      simp only [Bool.false_eq_true, if_false, if_true]
      have hn := create_webhook_events_neutral w net.id
        (resolveWebhookParams env wh).whName (resolveWebhookParams env wh).whUrl
        (resolveWebhookParams env wh).whSecret
      cases hc : create_webhook w net.id (resolveWebhookParams env wh).whName
          (resolveWebhookParams env wh).whUrl (resolveWebhookParams env wh).whSecret with
      | mk evs res =>
        rw [hc] at hn
        cases res with
        | none =>
          simp only [hc]
          rw [updatesCarry_append, updatesCarry_of_neutral doc evs hn]
          simp [updatesCarry]
        | some h =>
          simp only [hc]
          rw [updatesCarry_append, updatesCarry_of_neutral doc evs hn,
            backupThenUpdate_carry w net doc lf bdir]
          simp

theorem loopEvents_backedUp (w : World) (env : Env) (doc : AlertDoc) (lf bdir : String)
    (dr uw : Bool) (nets : List Network) :
    ∀ (wh : WebhookState) (b : List String),
      updatesBackedUp b (loopEvents w env doc lf bdir dr uw nets wh) = true := by
  induction nets with
  | nil => intro wh b; simp [loopEvents, updatesBackedUp]
  | cons net rest ih =>
    intro wh b
    simp only [loopEvents]
    rw [updatesBackedUp_append]
    rw [netSegment_backedUp, ih]
    simp

theorem loopEvents_mentions (w : World) (env : Env) (doc : AlertDoc) (lf bdir : String)
    (uw : Bool) (nets : List Network) (net : Network) (hmem : net ∈ nets) :
    ∀ wh : WebhookState,
      mentionsNetwork net.id (loopEvents w env doc lf bdir false uw nets wh) = true := by
  induction nets with
  | nil => cases hmem
  | cons hd rest ih =>
    intro wh
    simp only [loopEvents]
    rw [mentionsNetwork_append]
    rcases List.mem_cons.mp hmem with h | h
    · subst h; rw [netSegment_mentions]; simp
    · rw [ih h]; simp

theorem loopEvents_carry (w : World) (env : Env) (doc : AlertDoc) (lf bdir : String)
    (dr uw : Bool) (nets : List Network) :
    ∀ wh : WebhookState,
      updatesCarry doc (loopEvents w env doc lf bdir dr uw nets wh) = true := by
  induction nets with
  | nil => intro wh; simp [loopEvents, updatesCarry]
  | cons net rest ih =>
    intro wh
    simp only [loopEvents]
    rw [updatesCarry_append, netSegment_carry, ih]
    simp

theorem loopEvents_dry (w : World) (env : Env) (doc : AlertDoc) (lf bdir : String)
    (uw : Bool) (nets : List Network) :
    ∀ wh : WebhookState,
      loopEvents w env doc lf bdir true uw nets wh
        = nets.map (fun net => Event.logLine lf (dryRunMsg uw net.name)) := by
  induction nets with
  | nil => intro wh; simp [loopEvents]
  | cons net rest ih =>
    intro wh
    simp [loopEvents, netSegment, ih]

theorem mainRun_completed_shape (env : Env) (w : World) (sel : List Network)
    (h : (mainRun env w).2 = Outcome.completed sel) :
    ∃ doc org k,
      w.loadConfig = Except.ok doc ∧
      pyLowerStrip env.initialConfirm = "yes" ∧
      env.orgChoice = some k ∧
      pyGet w.orgs (k - 1) = some org ∧
      selectNetworks env (displayedNetworks env w org.id) = some sel ∧
      pyStrip env.finalConfirm = "CONFIRM" ∧
      (mainRun env w).1 =
        Event.constructDashboard :: Event.listOrgsCall :: Event.listNetworksCall org.id ::
        Event.mkBackupDir (backupDirName env.timestamp) ::
        Event.logLine (logFileName env.timestamp) (header1 env.timestamp) ::
        Event.logLine (logFileName env.timestamp) (header2 (dryRunOf env)) ::
        loopEvents w env doc (logFileName env.timestamp) (backupDirName env.timestamp)
          (dryRunOf env) (useWebhookOf env) sel ⟨"", "", ""⟩ := by
  rcases hl : w.loadConfig with e | doc
  · simp [mainRun, hl] at h
  · by_cases h1 : pyLowerStrip env.initialConfirm = "yes"
    case neg => simp [mainRun, hl, h1] at h
    case pos =>
      rcases ho : env.orgChoice with _ | k
      · simp [mainRun, hl, h1, ho] at h
      · rcases hg : pyGet w.orgs (k - 1) with _ | org
        · simp [mainRun, hl, h1, ho, hg] at h
        · by_cases h2 : pyStrip env.tagFilter ≠ "" ∧ displayedNetworks env w org.id = []
          case pos => simp [mainRun, hl, h1, ho, hg, h2] at h
          case neg =>
            rcases hs : selectNetworks env (displayedNetworks env w org.id) with _ | selected
            · simp [mainRun, hl, h1, ho, hg, h2, hs] at h
            · by_cases h3 : pyStrip env.finalConfirm = "CONFIRM"
              case neg => simp [mainRun, hl, h1, ho, hg, h2, hs, h3] at h
              case pos =>
                have hsel : selected = sel := by
                  simp [mainRun, hl, h1, ho, hg, h2, hs, h3] at h
                  exact h
                subst hsel
                refine ⟨doc, org, k, rfl, h1, rfl, hg, hs, h3, ?_⟩
                simp [mainRun, hl, h1, ho, hg, h2, hs, h3]

theorem mainRun_initial_gate (env : Env) (w : World)
    (h : pyLowerStrip env.initialConfirm ≠ "yes") :
    (mainRun env w).1 = [] ∧ ∀ sel, (mainRun env w).2 ≠ Outcome.completed sel := by
  rcases hl : w.loadConfig with e | doc
  · simp [mainRun, hl]
  · simp [mainRun, hl, h]

theorem mainRun_final_gate (env : Env) (w : World)
    (h : pyStrip env.finalConfirm ≠ "CONFIRM") :
    ∀ sel, (mainRun env w).2 ≠ Outcome.completed sel := by
  intro sel hc
  rcases mainRun_completed_shape env w sel hc with ⟨_, _, _, _, _, _, _, _, h3, _⟩
  exact h (by rw [h3])

theorem mainRun_not_completed_no_effects (env : Env) (w : World)
    (h : ∀ sel, (mainRun env w).2 ≠ Outcome.completed sel) :
    numPerNetworkEffects (mainRun env w).1 = 0 := by
  rcases hl : w.loadConfig with e | doc
  · simp [mainRun, hl, numPerNetworkEffects]
  · by_cases h1 : pyLowerStrip env.initialConfirm = "yes"
    case neg => simp [mainRun, hl, h1, numPerNetworkEffects]
    case pos =>
      rcases ho : env.orgChoice with _ | k
      · simp [mainRun, hl, h1, ho, numPerNetworkEffects, isPerNetworkEffect]
      · rcases hg : pyGet w.orgs (k - 1) with _ | org
        · simp [mainRun, hl, h1, ho, hg, numPerNetworkEffects, isPerNetworkEffect]
        · by_cases h2 : pyStrip env.tagFilter ≠ "" ∧ displayedNetworks env w org.id = []
          case pos =>
            simp [mainRun, hl, h1, ho, hg, h2, numPerNetworkEffects, isPerNetworkEffect]
          case neg =>
            rcases hs : selectNetworks env (displayedNetworks env w org.id) with _ | selected
            · simp [mainRun, hl, h1, ho, hg, h2, hs, numPerNetworkEffects, isPerNetworkEffect]
            · by_cases h3 : pyStrip env.finalConfirm = "CONFIRM"
              case neg =>
                simp [mainRun, hl, h1, ho, hg, h2, hs, h3, numPerNetworkEffects,
                  isPerNetworkEffect]
              case pos =>
                exfalso
                apply h selected
                simp [mainRun, hl, h1, ho, hg, h2, hs, h3]

theorem no_update_without_write (tr : List Event) :
    ∀ b : List String, updatesBackedUp b tr = true →
      ∀ nid : String, b.contains nid = false →
        hasBackupWriteFor nid tr = false → hasUpdateFor nid tr = false := by
  induction tr with
  | nil => intro b _ nid _ _; simp [hasUpdateFor]
  | cons e rest ih =>
    intro b hu nid hb hw
    cases e with
    | updateCall n d =>
      simp only [updatesBackedUp, Bool.and_eq_true] at hu
      simp only [hasBackupWriteFor, List.any_cons, Bool.or_eq_false_iff] at hw
      simp only [hasUpdateFor, List.any_cons, Bool.or_eq_false_iff]
      constructor
      · by_cases hn : n = nid
        · subst hn; rw [hu.1] at hb; cases hb
        · simpa using hn
      · exact ih b hu.2 nid hb hw.2
    | writeBackupFile n p c =>
      simp only [updatesBackedUp] at hu
      simp only [hasBackupWriteFor, List.any_cons, Bool.or_eq_false_iff] at hw
      simp only [hasUpdateFor, List.any_cons, Bool.or_eq_false_iff]
      refine ⟨by simp, ?_⟩
      have hb2 : (n :: b).contains nid = false := by
        simp only [List.contains_cons, Bool.or_eq_false_iff]
        refine ⟨?_, hb⟩
        have : ¬ (n == nid) = true := by
          intro hcontra
          rw [beq_iff_eq] at hcontra
          subst hcontra
          simp at hw
        simp only [beq_eq_false_iff_ne, ne_eq]
        intro hcontra
        exact this (by simp [hcontra])
      exact ih (n :: b) hu nid hb2 hw.2
    | constructDashboard =>
      exact ih b hu nid hb (by simpa [hasBackupWriteFor] using hw)
    | listOrgsCall =>
      exact ih b hu nid hb (by simpa [hasBackupWriteFor] using hw)
    | listNetworksCall o =>
      exact ih b hu nid hb (by simpa [hasBackupWriteFor] using hw)
    | mkBackupDir d =>
      exact ih b hu nid hb (by simpa [hasBackupWriteFor] using hw)
    | logLine f m =>
      exact ih b hu nid hb (by simpa [hasBackupWriteFor] using hw)
    | listHooksCall n =>
      exact ih b hu nid hb (by simpa [hasBackupWriteFor] using hw)
    | createHookCall n a2 a3 a4 a5 a6 =>
      exact ih b hu nid hb (by simpa [hasBackupWriteFor] using hw)
    | getAlertsCall n =>
      exact ih b hu nid hb (by simpa [hasBackupWriteFor] using hw)

theorem pyGet_none_of_le {α : Type} (l : List α) (i : Int) (h : (l.length : Int) ≤ i) :
    pyGet l i = none := by
  unfold pyGet
  rw [if_pos (le_trans (by positivity) h)]
  rw [List.get?_eq_getElem?]
  apply List.getElem?_eq_none
  omega

theorem pyGet_neg_one {α : Type} (l : List α) (h : l ≠ []) :
    pyGet l (-1) = l.getLast? := by
  unfold pyGet
  have hlen : 0 < l.length := List.length_pos.mpr h
  rw [if_neg (by omega), if_pos (by omega)]
  rw [List.get?_eq_getElem?, List.getLast?_eq_getElem?]
  congr 1
  omega

theorem pySelectList_eq_none (networks : List Network) (idxs : List Int) (i : Int)
    (hmem : i ∈ idxs) (hg : pyGet networks i = none) :
    pySelectList networks idxs = none := by
  induction idxs with
  | nil => cases hmem
  | cons j rest ih =>
    rcases List.mem_cons.mp hmem with h | h
    · subst h
      simp [pySelectList, hg]
    · unfold pySelectList
      rw [ih h]
      cases pyGet networks j <;> simp

theorem parseIndices_drops_bad (ts1 ts2 : List String) (bad : String)
    (h : tokenToIndex bad = none) :
    (ts1 ++ bad :: ts2).filterMap tokenToIndex = (ts1 ++ ts2).filterMap tokenToIndex := by
  simp [List.filterMap_append, List.filterMap_cons, h]

theorem find?_append_of_none {α : Type} (p : α → Bool) (l : List α) (x : α)
    (h : l.find? p = none) : (l ++ [x]).find? p = [x].find? p := by
  rw [List.find?_append, h]
  rfl

theorem mainRun_trace_cases (env : Env) (w : World) :
    (mainRun env w).1 = [] ∨
    (mainRun env w).1 = [Event.constructDashboard, Event.listOrgsCall] ∨
    (∃ oid, (mainRun env w).1 =
      [Event.constructDashboard, Event.listOrgsCall, Event.listNetworksCall oid]) ∨
    (∃ oid, (mainRun env w).1 =
      [Event.constructDashboard, Event.listOrgsCall, Event.listNetworksCall oid,
       Event.mkBackupDir (backupDirName env.timestamp),
       Event.logLine (logFileName env.timestamp) (header1 env.timestamp),
       Event.logLine (logFileName env.timestamp) (header2 (dryRunOf env))]) ∨
    (∃ doc oid sel, w.loadConfig = Except.ok doc ∧ (mainRun env w).1 =
      Event.constructDashboard :: Event.listOrgsCall :: Event.listNetworksCall oid ::
      Event.mkBackupDir (backupDirName env.timestamp) ::
      Event.logLine (logFileName env.timestamp) (header1 env.timestamp) ::
      Event.logLine (logFileName env.timestamp) (header2 (dryRunOf env)) ::
      loopEvents w env doc (logFileName env.timestamp) (backupDirName env.timestamp)
        (dryRunOf env) (useWebhookOf env) sel ⟨"", "", ""⟩) := by
  rcases hl : w.loadConfig with e | doc
  · left; simp [mainRun, hl]
  · by_cases h1 : pyLowerStrip env.initialConfirm = "yes"
    case neg => left; simp [mainRun, hl, h1]
    case pos =>
      rcases ho : env.orgChoice with _ | k
      · right; left; simp [mainRun, hl, h1, ho]
      · rcases hg : pyGet w.orgs (k - 1) with _ | org
        · right; left; simp [mainRun, hl, h1, ho, hg]
        · by_cases h2 : pyStrip env.tagFilter ≠ "" ∧ displayedNetworks env w org.id = []
          case pos =>
            right; right; left
            exact ⟨org.id, by simp [mainRun, hl, h1, ho, hg, h2]⟩
          case neg =>
            rcases hs : selectNetworks env (displayedNetworks env w org.id) with _ | selected
            · right; right; left
              exact ⟨org.id, by simp [mainRun, hl, h1, ho, hg, h2, hs]⟩
            · by_cases h3 : pyStrip env.finalConfirm = "CONFIRM"
              case neg =>
                right; right; right; left
                exact ⟨org.id, by simp [mainRun, hl, h1, ho, hg, h2, hs, h3]⟩
              case pos =>
                right; right; right; right
                exact ⟨doc, org.id, selected, rfl,
                  by simp [mainRun, hl, h1, ho, hg, h2, hs, h3]⟩

theorem numPerNetworkEffects_map_log (lf : String) (f : Network → String)
    (nets : List Network) :
    numPerNetworkEffects (nets.map (fun net => Event.logLine lf (f net))) = 0 := by
  induction nets with
  | nil => rfl
  | cons n rest ih => simp [numPerNetworkEffects, isPerNetworkEffect, ih]

/-- Remote world whose alert-settings fetch always raises, so every backup
step fails. -/
def wBackupFail : World := { wOk with getAlerts := fun _ => Except.error "HTTP 500" }

/-- Remote world where the update call fails for network N1 only. -/
def wUpdateFailN1 : World :=
  { wOk with updateAlerts := fun nid _ =>
      if nid = "N1" then Except.error "HTTP 400" else Except.ok () }

/-- Remote world whose only network carries the `dev` tag. -/
def wNoProd : World := { wOk with networksOf := fun _ => [net2] }

/-- An existing webhook receiver whose name matches the requested one. -/
def hookA : Hook :=
  { id := "H1", name := "wh", url := "https://old.example", sharedSecret := "z",
    payloadTemplateId := "wpt_00001" }

/-- Remote world on which network N1 already has the receiver `hookA`. -/
def wHooks : World := { wOk with listHooks := fun _ => Except.ok [hookA] }

/-- Baseline answers with dry-run enabled. -/
def envDry : Env := { envBase with dryRunAnswer := "y" }

/-- Baseline answers with a wrong final confirmation token. -/
def envNoFinal : Env := { envBase with finalConfirm := "confirm" }

/-- Baseline answers declining the initial confirmation. -/
def envNoInit : Env := { envBase with initialConfirm := "nope" }

/-- Baseline answers with the `prod` tag filter. -/
def envTag : Env := { envBase with tagFilter := "prod" }

/-- Baseline answers selecting by index list `0` instead of all. -/
def envZero : Env := { envBase with allAnswer := "n", indicesAnswer := "0" }

/-- Baseline answers selecting by an index beyond the displayed list. -/
def envHigh : Env := { envBase with allAnswer := "n", indicesAnswer := "5, x, " }

/-- C1: Backup-before-update safety.  In every run trace, each
alert-settings update call is preceded strictly earlier by a successful
backup-file write for the same network, and a network for which no backup
file was ever written (in particular one whose backup step failed) never
receives an update call. -/
theorem claim_C1 (env : Env) (w : World) :
    updatesBackedUp [] (mainRun env w).1 = true ∧
    (∀ nid : String, hasBackupWriteFor nid (mainRun env w).1 = false →
      hasUpdateFor nid (mainRun env w).1 = false) := by
  have hub : updatesBackedUp [] (mainRun env w).1 = true := by
    rcases mainRun_trace_cases env w with h | h | ⟨oid, h⟩ | ⟨oid, h⟩ | ⟨doc, oid, sel, _, h⟩ <;>
      rw [h]
    · rfl
    · rfl
    · rfl
    · rfl
    · simp only [updatesBackedUp]
      exact loopEvents_backedUp w env doc (logFileName env.timestamp)
        (backupDirName env.timestamp) (dryRunOf env) (useWebhookOf env) sel ⟨"", "", ""⟩ []
  exact ⟨hub, fun nid hw => no_update_without_write _ [] hub nid rfl hw⟩

/-- C1 witness: on a world whose alert-settings fetch always fails, no
backup file is written for N1 and consequently N1 is never updated. -/
theorem claim_C1_witness :
    updatesBackedUp [] (mainRun envBase wBackupFail).1 = true ∧
    hasUpdateFor "N1" (mainRun envBase wBackupFail).1 = false :=
  ⟨(claim_C1 envBase wBackupFail).1,
   (claim_C1 envBase wBackupFail).2 "N1" (by decide)⟩

/-- C2: Dry-run performs zero remote mutations.  A completed dry run makes
no webhook listing or creation call, no alert-settings fetch, writes no
backup file, and makes no update call; its trace is exactly the preflight
events followed by one simulated log line per selected network, in
order. -/
theorem claim_C2 (env : Env) (w : World) (sel : List Network)
    (hdry : dryRunOf env = true)
    (hc : (mainRun env w).2 = Outcome.completed sel) :
    numPerNetworkEffects (mainRun env w).1 = 0 ∧
    ∃ oid, (mainRun env w).1 =
      Event.constructDashboard :: Event.listOrgsCall :: Event.listNetworksCall oid ::
      Event.mkBackupDir (backupDirName env.timestamp) ::
      Event.logLine (logFileName env.timestamp) (header1 env.timestamp) ::
      Event.logLine (logFileName env.timestamp) (header2 true) ::
      sel.map (fun net => Event.logLine (logFileName env.timestamp)
        (dryRunMsg (useWebhookOf env) net.name)) := by
  obtain ⟨doc, org, k, _, _, _, _, _, _, htr⟩ := mainRun_completed_shape env w sel hc
  rw [hdry] at htr
  rw [loopEvents_dry] at htr
  refine ⟨?_, org.id, htr⟩
  rw [htr]
  simp [numPerNetworkEffects, isPerNetworkEffect, numPerNetworkEffects_map_log]

/-- C2 witness: a concrete completed dry run over two networks has zero
per-network effects and exactly the two simulated log lines. -/
theorem claim_C2_witness :
    numPerNetworkEffects (mainRun envDry wOk).1 = 0 ∧
    ∃ oid, (mainRun envDry wOk).1 =
      Event.constructDashboard :: Event.listOrgsCall :: Event.listNetworksCall oid ::
      Event.mkBackupDir (backupDirName envDry.timestamp) ::
      Event.logLine (logFileName envDry.timestamp) (header1 envDry.timestamp) ::
      Event.logLine (logFileName envDry.timestamp) (header2 true) ::
      [net1, net2].map (fun net => Event.logLine (logFileName envDry.timestamp)
        (dryRunMsg (useWebhookOf envDry) net.name)) :=
  claim_C2 envDry wOk [net1, net2] (by decide) (by decide)

/-- C3: Final confirmation gate.  Whenever the stripped final answer is not
the exact token CONFIRM, the whole run performs zero per-network remote
calls or writes (no webhook listing or creation, no settings fetch, no
backup write, no update) and never completes. -/
theorem claim_C3 (env : Env) (w : World) (h : pyStrip env.finalConfirm ≠ "CONFIRM") :
    numPerNetworkEffects (mainRun env w).1 = 0 ∧
    ∀ sel, (mainRun env w).2 ≠ Outcome.completed sel := by
  have hnc := mainRun_final_gate env w h
  exact ⟨mainRun_not_completed_no_effects env w hnc, hnc⟩

/-- C3 witness: answering `confirm` (lowercase) at the final gate yields a
run with zero per-network effects. -/
theorem claim_C3_witness :
    numPerNetworkEffects (mainRun envNoFinal wOk).1 = 0 ∧
    ∀ sel, (mainRun envNoFinal wOk).2 ≠ Outcome.completed sel :=
  claim_C3 envNoFinal wOk (by decide)

/-- C9: Initial confirmation gate.  If the stripped, lowercased initial
answer is not `yes`, the run produces an empty event trace: no remote call
is made and in particular the Dashboard client is never constructed. -/
theorem claim_C9 (env : Env) (w : World)
    (h : pyLowerStrip env.initialConfirm ≠ "yes") :
    (mainRun env w).1 = [] ∧ Event.constructDashboard ∉ (mainRun env w).1 ∧
    ∀ sel, (mainRun env w).2 ≠ Outcome.completed sel := by
  obtain ⟨h1, h2⟩ := mainRun_initial_gate env w h
  exact ⟨h1, by simp [h1], h2⟩

/-- C9 witness: answering `nope` at the initial gate gives the empty
trace. -/
theorem claim_C9_witness :
    (mainRun envNoInit wOk).1 = [] ∧
    Event.constructDashboard ∉ (mainRun envNoInit wOk).1 ∧
    ∀ sel, (mainRun envNoInit wOk).2 ≠ Outcome.completed sel :=
  claim_C9 envNoInit wOk (by decide)

/-- C10: Every run that passes both confirmation gates (a completed run)
creates the run-scoped backup directory and writes the two log header lines
before any per-network event, regardless of the dry-run flag and even when
no network is backed up or updated. -/
theorem claim_C10 (env : Env) (w : World) (sel : List Network)
    (hc : (mainRun env w).2 = Outcome.completed sel) :
    ∃ oid rest, (mainRun env w).1 =
      [Event.constructDashboard, Event.listOrgsCall, Event.listNetworksCall oid,
       Event.mkBackupDir (backupDirName env.timestamp),
       Event.logLine (logFileName env.timestamp) (header1 env.timestamp),
       Event.logLine (logFileName env.timestamp) (header2 (dryRunOf env))] ++ rest := by
  obtain ⟨doc, org, k, _, _, _, _, _, _, htr⟩ := mainRun_completed_shape env w sel hc
  refine ⟨org.id,
    loopEvents w env doc (logFileName env.timestamp) (backupDirName env.timestamp)
      (dryRunOf env) (useWebhookOf env) sel ⟨"", "", ""⟩, ?_⟩
  simpa using htr

/-- C10 witness: the baseline completed run creates the backup directory
and writes both header lines before the loop. -/
theorem claim_C10_witness :
    ∃ oid rest, (mainRun envBase wOk).1 =
      [Event.constructDashboard, Event.listOrgsCall, Event.listNetworksCall oid,
       Event.mkBackupDir (backupDirName envBase.timestamp),
       Event.logLine (logFileName envBase.timestamp) (header1 envBase.timestamp),
       Event.logLine (logFileName envBase.timestamp) (header2 (dryRunOf envBase))] ++ rest :=
  claim_C10 envBase wOk [net1, net2] (by decide)

/-- C6: Tag filtering.  The filter output is a subsequence of the input,
every element of the output carries the tag (exact, case-sensitive list
membership) and every input element carrying the tag is kept; an empty
stripped tag answer skips filtering entirely; and a non-empty tag with zero
matches ends the run (abortedNoNetworks) with zero per-network effects. -/
theorem claim_C6 (env : Env) (w : World) (nets : List Network) (tag oid : String)
    (doc : AlertDoc) (k : Int) (org : Org) :
    (filter_networks_by_tag nets tag).Sublist nets ∧
    (∀ net ∈ filter_networks_by_tag nets tag, net.tags.contains tag = true) ∧
    (∀ net ∈ nets, net.tags.contains tag = true → net ∈ filter_networks_by_tag nets tag) ∧
    (pyStrip env.tagFilter = "" → displayedNetworks env w oid = w.networksOf oid) ∧
    ((w.loadConfig = Except.ok doc ∧ pyLowerStrip env.initialConfirm = "yes" ∧
        env.orgChoice = some k ∧ pyGet w.orgs (k - 1) = some org ∧
        pyStrip env.tagFilter ≠ "" ∧
        filter_networks_by_tag (w.networksOf org.id) (pyStrip env.tagFilter) = []) →
      (mainRun env w).2 = Outcome.abortedNoNetworks ∧
        numPerNetworkEffects (mainRun env w).1 = 0) := by
  refine ⟨List.filter_sublist nets, ?_, ?_, ?_, ?_⟩
  · intro net hmem
    exact (List.mem_filter.mp hmem).2
  · intro net hmem htag
    exact List.mem_filter.mpr ⟨hmem, htag⟩
  · intro hempty
    unfold displayedNetworks
    rw [if_pos hempty]
  · rintro ⟨hl, h1, ho, hg, htag, hfil⟩
    have hdisp : displayedNetworks env w org.id = [] := by
      unfold displayedNetworks
      rw [if_neg htag]
      exact hfil
    constructor
    · simp [mainRun, hl, h1, ho, hg, htag, hdisp]
    · simp [mainRun, hl, h1, ho, hg, htag, hdisp, numPerNetworkEffects, isPerNetworkEffect]

/-- C6 witness: filtering two example networks by `prod`, plus a concrete
run whose `prod` filter matches nothing and therefore ends with
abortedNoNetworks and zero per-network effects. -/
theorem claim_C6_witness :
    (filter_networks_by_tag [net1, net2] "prod").Sublist [net1, net2] ∧
    (mainRun envTag wNoProd).2 = Outcome.abortedNoNetworks ∧
    numPerNetworkEffects (mainRun envTag wNoProd).1 = 0 :=
  ⟨(claim_C6 envTag wNoProd [net1, net2] "prod" "O1" "docA" 1 org1).1,
   (claim_C6 envTag wNoProd [net1, net2] "prod" "O1" "docA" 1 org1).2.2.2.2
     (by refine ⟨rfl, by decide, by decide, by decide, by decide, by decide⟩)⟩

/-- C7: Partial-failure isolation.  The update step converts any remote
error into a `false` result while still recording exactly the attempted
update call (no exception escapes), and in every completed non-dry run
every selected network receives its own per-network remote attempt,
regardless of what happened on the other networks. -/
theorem claim_C7 (env : Env) (w : World) :
    (∀ (nid : String) (doc : AlertDoc) (e : String),
       w.updateAlerts nid doc = Except.error e →
       (update_network_alert_settings w nid doc).2 = false ∧
       (update_network_alert_settings w nid doc).1 = [Event.updateCall nid doc]) ∧
    (∀ sel, (mainRun env w).2 = Outcome.completed sel →
       dryRunOf env = false →
       ∀ net ∈ sel, mentionsNetwork net.id (mainRun env w).1 = true) := by
  constructor
  · intro nid doc e he
    unfold update_network_alert_settings
    rw [he]
    exact ⟨rfl, rfl⟩
  · intro sel hc hdr net hmem
    obtain ⟨doc, org, k, _, _, _, _, _, _, htr⟩ := mainRun_completed_shape env w sel hc
    rw [hdr] at htr
    rw [htr]
    have hloop := loopEvents_mentions w env doc (logFileName env.timestamp)
      (backupDirName env.timestamp) (useWebhookOf env) sel net hmem ⟨"", "", ""⟩
    simp [mentionsNetwork, eventNetId] at hloop ⊢
    exact hloop

/-- C7 witness: on a world where the update for N1 fails, the update step
returns false for N1 with exactly one attempted call, and N2 (selected
after N1) still receives its own per-network attempt. -/
theorem claim_C7_witness :
    ((update_network_alert_settings wUpdateFailN1 "N1" "docA").2 = false ∧
     (update_network_alert_settings wUpdateFailN1 "N1" "docA").1 =
       [Event.updateCall "N1" "docA"]) ∧
    mentionsNetwork "N2" (mainRun envBase wUpdateFailN1).1 = true :=
  ⟨(claim_C7 envBase wUpdateFailN1).1 "N1" "docA" "HTTP 400" rfl,
   (claim_C7 envBase wUpdateFailN1).2 [net1, net2] (by decide) (by decide) net2 (by decide)⟩

/-- C8: The alert-settings document is never mutated during a run: every
update call in the trace carries exactly the document loaded from the
config file (the commented-out webhook-ID injection never runs). -/
theorem claim_C8 (env : Env) (w : World) (doc : AlertDoc)
    (h : w.loadConfig = Except.ok doc) :
    updatesCarry doc (mainRun env w).1 = true := by
  rcases mainRun_trace_cases env w with ht | ht | ⟨oid, ht⟩ | ⟨oid, ht⟩ |
    ⟨doc2, oid, sel, hl, ht⟩ <;> rw [ht]
  · rfl
  · rfl
  · rfl
  · rfl
  · have hd : doc2 = doc := by
      rw [h] at hl
      exact (Except.ok.injEq _ _ ▸ hl).symm
    subst hd
    simp only [updatesCarry, List.all_cons]
    have := loopEvents_carry w env doc2 (logFileName env.timestamp)
      (backupDirName env.timestamp) (dryRunOf env) (useWebhookOf env) sel ⟨"", "", ""⟩
    simp only [updatesCarry] at this
    simp [this]

/-- C8 witness: on the baseline completed run every update call carries the
loaded document docA. -/
theorem claim_C8_witness : updatesCarry "docA" (mainRun envBase wOk).1 = true :=
  claim_C8 envBase wOk "docA" rfl

/-- C4 counterexample: with displayed networks [net1, net2] and the
selection answer `0` (an out-of-range 1-based index), the run does NOT
abort: Python negative indexing turns token 0 into index -1, the run
completes with the LAST displayed network selected, and it performs
per-network mutations, updating N2. -/
theorem claim_C4_cex :
    (mainRun envZero wOk).2 = Outcome.completed [net2] ∧
    numPerNetworkEffects (mainRun envZero wOk).1 ≠ 0 ∧
    hasUpdateFor "N2" (mainRun envZero wOk).1 = true := by
  refine ⟨by decide, by decide, by decide⟩

/-- C4 (amended): the selection step accepts an all-networks answer or a
comma-separated list of 1-based indices; blank and non-numeric tokens are
silently dropped; any parsed index greater than the number of displayed
networks makes the selection raise (and a run that never completes performs
zero per-network effects); but the token 0 does not abort: it parses to
index -1 and Python negative indexing resolves it to the LAST displayed
network. -/
theorem claim_C4 (env : Env) (w : World) (nets : List Network)
    (ts1 ts2 : List String) (bad : String) (i : Int) :
    (pyLowerStrip env.allAnswer = "y" → selectNetworks env nets = some nets) ∧
    (tokenToIndex bad = none →
      (ts1 ++ bad :: ts2).filterMap tokenToIndex = (ts1 ++ ts2).filterMap tokenToIndex) ∧
    (pyLowerStrip env.allAnswer ≠ "y" → i ∈ parseIndices env.indicesAnswer →
      (nets.length : Int) ≤ i → selectNetworks env nets = none) ∧
    ((∀ sel, (mainRun env w).2 ≠ Outcome.completed sel) →
      numPerNetworkEffects (mainRun env w).1 = 0) ∧
    parseIndices "0" = [-1] ∧
    (nets ≠ [] → pyGet nets (-1) = nets.getLast?) := by
  refine ⟨?_, ?_, ?_, mainRun_not_completed_no_effects env w, by decide, pyGet_neg_one nets⟩
  · intro hy
    unfold selectNetworks
    rw [if_pos hy]
  · exact parseIndices_drops_bad ts1 ts2 bad
  · intro hn hi hle
    unfold selectNetworks
    rw [if_neg hn]
    exact pySelectList_eq_none nets (parseIndices env.indicesAnswer) i hi
      (pyGet_none_of_le nets i hle)

/-- C4 witness: answering `y` selects all displayed networks; the answer
`5, x, ` (index beyond the two displayed networks, a non-numeric and a
blank token) makes the selection raise and the crashed run performs zero
per-network effects; `0` parses to -1, which resolves to the last displayed
network. -/
theorem claim_C4_witness :
    selectNetworks envBase [net1, net2] = some [net1, net2] ∧
    selectNetworks envHigh [net1, net2] = none ∧
    numPerNetworkEffects (mainRun envHigh wOk).1 = 0 ∧
    parseIndices "0" = [-1] ∧
    pyGet [net1, net2] (-1) = [net1, net2].getLast? :=
  ⟨(claim_C4 envBase wOk [net1, net2] [] [] "" 0).1 (by decide),
   (claim_C4 envHigh wOk [net1, net2] [] [] "" 4).2.2.1 (by decide) (by decide) (by decide),
   (claim_C4 envHigh wOk [net1, net2] [] [] "" 4).2.2.2.1
     (by
       intro sel h
       rw [show (mainRun envHigh wOk).2 = Outcome.crashed "IndexError" by decide] at h
       exact Outcome.noConfusion h),
   (claim_C4 envBase wOk [net1, net2] [] [] "" 0).2.2.2.2.1,
   (claim_C4 envBase wOk [net1, net2] [] [] "" 0).2.2.2.2.2 (by decide)⟩

/-- C5: Webhook provisioning idempotency.  When some existing receiver
matches the requested name or url, `create_webhook` returns the first such
receiver, leaves the receiver store unchanged, and creates nothing (on its
remote form it makes no creation call); otherwise it creates exactly one
receiver with the fixed payload template id wpt_00001; hence a second call
with the same name and url returns the same receiver, leaves the store
unchanged, and creates nothing. -/
theorem claim_C5 (hooks : List Hook) (name url s1 s2 f1 f2 : String) :
    (∀ h : Hook, findMatchingHook hooks name url = some h →
       create_webhook_state hooks name url s1 f1 = (h, hooks, false) ∧
       h ∈ hooks ∧ hookMatches name url h = true) ∧
    (findMatchingHook hooks name url = none →
       create_webhook_state hooks name url s1 f1 =
         (newHookOf name url s1 f1, hooks ++ [newHookOf name url s1 f1], true) ∧
       (newHookOf name url s1 f1).payloadTemplateId = "wpt_00001") ∧
    ((create_webhook_state (create_webhook_state hooks name url s1 f1).2.1
        name url s2 f2).1 = (create_webhook_state hooks name url s1 f1).1 ∧
     (create_webhook_state (create_webhook_state hooks name url s1 f1).2.1
        name url s2 f2).2.1 = (create_webhook_state hooks name url s1 f1).2.1 ∧
     (create_webhook_state (create_webhook_state hooks name url s1 f1).2.1
        name url s2 f2).2.2 = false) ∧
    (∀ (w : World) (nid : String) (h : Hook), w.listHooks nid = Except.ok hooks →
       findMatchingHook hooks name url = some h →
       create_webhook w nid name url s1 = ([Event.listHooksCall nid], some h)) := by
  refine ⟨?_, ?_, ?_, ?_⟩
  · intro h hf
    refine ⟨by simp [create_webhook_state, hf], List.mem_of_find?_eq_some hf,
      List.find?_some hf⟩
  · intro hf
    exact ⟨by simp [create_webhook_state, hf], rfl⟩
  · cases hf : findMatchingHook hooks name url with
    | some h => simp [create_webhook_state, hf]
    | none =>
      have hnew : hookMatches name url (newHookOf name url s1 f1) = true := by
        simp [hookMatches, newHookOf]
      have hstep : findMatchingHook (hooks ++ [newHookOf name url s1 f1]) name url =
          some (newHookOf name url s1 f1) := by
        unfold findMatchingHook at hf ⊢
        rw [find?_append_of_none _ _ _ hf]
        simp [List.find?, hnew]
      simp [create_webhook_state, hf, hstep]
  · intro w nid h hl hf
    unfold create_webhook
    rw [hl]
    simp [hf]

/-- C5 witness: with an existing receiver hookA matching by name, the call
reuses hookA without creating; on an empty receiver store two successive
calls return the same new receiver (template wpt_00001) and the second call
creates nothing; on the remote form no creation call is made when hookA
matches. -/
theorem claim_C5_witness :
    (create_webhook_state [hookA] "wh" "https://new.example" "s" "F1" =
       (hookA, [hookA], false) ∧ hookA ∈ [hookA] ∧
       hookMatches "wh" "https://new.example" hookA = true) ∧
    ((create_webhook_state (create_webhook_state [] "wh" "u" "s1" "F1").2.1
        "wh" "u" "s2" "F2").1 = (create_webhook_state [] "wh" "u" "s1" "F1").1 ∧
     (create_webhook_state (create_webhook_state [] "wh" "u" "s1" "F1").2.1
        "wh" "u" "s2" "F2").2.1 = (create_webhook_state [] "wh" "u" "s1" "F1").2.1 ∧
     (create_webhook_state (create_webhook_state [] "wh" "u" "s1" "F1").2.1
        "wh" "u" "s2" "F2").2.2 = false) ∧
    create_webhook wHooks "N1" "wh" "https://new.example" "s" =
      ([Event.listHooksCall "N1"], some hookA) :=
  ⟨(claim_C5 [hookA] "wh" "https://new.example" "s" "s" "F1" "F2").1 hookA (by decide),
   (claim_C5 [] "wh" "u" "s1" "s2" "F1" "F2").2.2.1,
   (claim_C5 [hookA] "wh" "https://new.example" "s" "s" "F1" "F2").2.2.2
     wHooks "N1" hookA rfl (by decide)⟩
